import Mathlib

/-!
Verification development for the `arc_hacks` repository (two Python batch
scripts: `geodatabase_catalog.py` and `layer_metadata.py`).

The scripts are shallowly embedded: the external `arcpy` / `os` / `pandas`
surface is modelled as explicit environments (records of functions returning
`Except`/`Option` values, a raised Python exception becoming an `Except.error`),
and each Python function becomes a Lean function over those environments.
Strings are Lean `String`s; the string operations the scripts use
(`str.lower`, `str.endswith`, `os.path.basename`, path joining) are
implemented over the underlying character lists so that concrete runs reduce
in the kernel.
-/

/-! ## String helpers (models of `str.lower`, `str.endswith`, `os.path` ops) -/

/-- ASCII lower-casing of one character, as `str.lower` does for ASCII input. -/
def lowerChar (c : Char) : Char :=
  if 'A' ≤ c ∧ c ≤ 'Z' then Char.ofNat (c.toNat + 32) else c

/-- Model of Python `s.lower()` (ASCII range). -/
def strLower (s : String) : String := ⟨s.data.map lowerChar⟩

/-- Test that `p` is a suffix of `l` (Python `l.endswith(p)`). -/
def charsSuffix (p l : List Char) : Bool :=
  l.drop (l.length - p.length) == p

/-- Model of Python `s.endswith(sfx)`. -/
def strEndsWith (s sfx : String) : Bool := charsSuffix sfx.data s.data

/-- The candidate test of `geodatabase_catalog.inventory_geodatabases`
(line 111): `dirname.lower().endswith(".gdb")`. -/
def hasGdbSuffix (dirname : String) : Bool := strEndsWith (strLower dirname) ".gdb"

/-- Model of `os.path.join` (separator abstracted to `/`). -/
def pathJoin (a b : String) : String := a ++ "/" ++ b

/-- Characters of a path after the last separator. -/
def basenameChars (cs : List Char) : List Char :=
  cs.foldl (fun acc c => if c = '/' then [] else acc ++ [c]) []

/-- Model of `os.path.basename`. -/
def basename (p : String) : String := ⟨basenameChars p.data⟩

/-- Test that `p` starts `l`. -/
def charsAt (p l : List Char) : Bool :=
  l.take p.length == p

/-- Test that `p` occurs contiguously inside the second list. -/
def charsInfix (p : List Char) : List Char → Bool
  | [] => p == []
  | c :: cs => charsAt p (c :: cs) || charsInfix p cs

/-- Test that the string `needle` occurs as a substring of `hay`. -/
def occursIn (needle hay : String) : Bool := charsInfix needle.data hay.data

deriving instance DecidableEq for Except

namespace LayerMetadata

/-! ## Model of `layer_metadata.py`

A `.lyrx` file handed to the script is modelled as its path together with the
outcome of `arcpy.mp.LayerFile(file_path)` plus the `os.stat` data read right
after it: an exception anywhere in that prefix of the per-file `try` block is
an `Except.error` carrying `str(e)`.  Each layer inside an opened file is
modelled by the attribute values the script reads from it; every inner
`try`-protected attribute group is an `Except` (error = the Python exception's
message).  Formatted values coming from the external library (timestamps,
`f"{size:.2f}"`, scales, transparency, colours) are modelled as the strings
they interpolate to. -/

/-- One entry of `arcpy.da.Describe(...)["fields"]` as read by the script. -/
structure FieldModel where
  name : String
  type : String
  length : String
  aliasName : String
  isNullable : String
deriving DecidableEq

/-- The layer-property attributes read in the `### Layer Properties` block. -/
structure PropsModel where
  description : String
  visible : String
  minScale : String
  maxScale : String
  transparency : String
  supportsDefinitionQuery : Bool
  definitionQuery : String
deriving DecidableEq

/-- The `sym.renderer.symbol` attributes read in the symbology block
(`color`/`size` are `none` when `hasattr` fails). -/
structure SymbolModel where
  type : String
  color : Option String
  size : Option String
deriving DecidableEq

/-- The symbology attributes read in the `### Symbology` block; the optional
fields are `none` when the corresponding `hasattr` test fails. -/
structure SymModel where
  supportsSymbology : Bool
  rendererType : String
  symbol : Option SymbolModel
  classificationFields : Option String
  classBreakCount : Option String
  groupsCount : Option Nat
deriving DecidableEq

/-- One layer of an opened layer file, as the script reads it.
`sourceStats` models the `try: if os.path.exists(...): os.stat(...)` block:
`.error` = the block raised (swallowed by `except: pass`), `.ok none` = the
data source does not exist, `.ok (c, m)` = its created/modified stamps. -/
structure LayerModel where
  name : String
  supportsDataSource : Bool
  dataSource : String
  sourceStats : Except Unit (Option (String × String))
  daFields : Except String (List FieldModel)
  props : Except String PropsModel
  sym : Except String SymModel
deriving DecidableEq

/-- The data obtained from a successfully opened layer file:
the `os.stat` results formatted as in the script, and its layers. -/
structure FileModel where
  file_created : String
  file_modified : String
  file_size_str : String
  layers : List LayerModel
deriving DecidableEq

/-- A globbed `.lyrx` file: its path and the outcome of opening it. -/
structure LyrxFile where
  path : String
  openResult : Except String FileModel
deriving DecidableEq

/-- The `contents_header` string of `extract_layer_metadata` (note the space
before the newline, as in the source). -/
def contents_header : String := "### Table of Contents \n\n"

/-- The `file_info` section built for each successfully opened file. -/
def fileInfoSection (file_path : String) (fm : FileModel) : String :=
  "### File Information:\n\n" ++
  "- File Path: " ++ file_path ++ "\n" ++
  "- File Name: " ++ basename file_path ++ "\n" ++
  "- Created: " ++ fm.file_created ++ "\n" ++
  "- Last Modified: " ++ fm.file_modified ++ "\n" ++
  "- File Size: " ++ fm.file_size_str ++ " KB\n\n"

/-- The `toc_entry` string appended to `contents` for each successful file. -/
def tocEntry (file_path : String) : String := "- " ++ file_path ++ "\n"

/-- The `layer_info` section (name and data source). -/
def layerInfoSection (l : LayerModel) : String :=
  "## Layer: " ++ l.name ++ "\n\n" ++ "Source: " ++ l.dataSource ++ "\n\n"

/-- The optional `source_info` section: present only when the
`os.path.exists`/`os.stat` block neither raises nor reports a missing file. -/
def sourceInfoSections (l : LayerModel) : List String :=
  match l.sourceStats with
  | .error _ => []
  | .ok none => []
  | .ok (some (c, m)) =>
      ["Data Source Metadata:\n\n" ++
       "- Created: " ++ c ++ "\n" ++
       "- Last Modified: " ++ m ++ "\n\n"]

/-- One bullet of the `### Fields` section. -/
def fieldLine (f : FieldModel) : String :=
  "- " ++ f.name ++ "\n" ++
  "  - Type: " ++ f.type ++ "\n" ++
  "  - Length: " ++ f.length ++ "\n" ++
  "  - Alias: " ++ f.aliasName ++ "\n" ++
  "  - Nullable: " ++ f.isNullable ++ "\n\n"

/-- The `### Fields` section, or the inline error string on failure. -/
def fieldsSection (l : LayerModel) : String :=
  match l.daFields with
  | .ok fs => "### Fields:\n\n" ++ String.join (fs.map fieldLine)
  | .error e => "Error reading fields: " ++ e ++ "\n\n"

/-- The `### Layer Properties` section, or the inline error string. -/
def propsSection (l : LayerModel) : String :=
  match l.props with
  | .ok p =>
      "### Layer Properties:\n\n" ++
      "- Description: " ++ p.description ++ "\n" ++
      "- Visible: " ++ p.visible ++ "\n" ++
      "- Min Scale: " ++ p.minScale ++ "\n" ++
      "- Max Scale: " ++ p.maxScale ++ "\n" ++
      "- Transparency: " ++ p.transparency ++ "%\n" ++
      (if p.supportsDefinitionQuery then
        "- Definition Query: " ++ p.definitionQuery ++ "\n" else "") ++
      "\n"
  | .error e => "Error reading layer properties: " ++ e ++ "\n\n"

/-- The `### Symbology` section, or the inline error string. -/
def symSection (l : LayerModel) : String :=
  match l.sym with
  | .ok s =>
      "### Symbology:\n\n" ++
      (if s.supportsSymbology then
        "- Renderer Type: " ++ s.rendererType ++ "\n" ++
        (match s.symbol with
         | some sb =>
             "- Symbol Type: " ++ sb.type ++ "\n" ++
             (match sb.color with
              | some c => "- Color: RGB" ++ c ++ "\n"
              | none => "") ++
             (match sb.size with
              | some z => "- Size: " ++ z ++ "\n"
              | none => "")
         | none => "") ++
        (match s.classificationFields with
         | some f => "- Classification Field(s): " ++ f ++ "\n"
         | none => "") ++
        (match s.classBreakCount with
         | some c => "- Class Breaks: " ++ c ++ "\n"
         | none => "") ++
        (match s.groupsCount with
         | some n => "- Number of Groups: " ++ toString n ++ "\n"
         | none => "")
      else "") ++ "\n"
  | .error e => "Error reading symbology: " ++ e ++ "\n\n"

/-- All strings appended to `data_list` for one layer, in source order.
Layers that do not support `DATASOURCE` contribute nothing. -/
def layerSections (l : LayerModel) : List String :=
  if l.supportsDataSource then
    [layerInfoSection l] ++ sourceInfoSections l ++
    [fieldsSection l, propsSection l, symSection l]
  else []

/-- An element of `data_list`, which is heterogeneous in the source: element 0
is the `contents` list (inserted at the end), the rest are plain strings. -/
inductive Chunk where
  | strs (ss : List String)
  | str (s : String)
deriving DecidableEq

/-- The per-file loop of `extract_layer_metadata`: returns the flat content
sections and the table-of-contents entries of the processed files, in order.
A file whose opening raises contributes nothing (the `except` prints and
`continue`s before any append). -/
def extractLoop : List LyrxFile → List String × List String
  | [] => ([], [])
  | f :: fs =>
    let rest := extractLoop fs
    match f.openResult with
    | .error _ => rest
    | .ok fm =>
        (fileInfoSection f.path fm :: (fm.layers.flatMap layerSections ++ rest.1),
         tocEntry f.path :: rest.2)

/-- Model of `extract_layer_metadata`: the content sections with the
`contents` list inserted at index 0. -/
def extract_layer_metadata (lyrx_files : List LyrxFile) : List Chunk :=
  let r := extractLoop lyrx_files
  Chunk.strs (contents_header :: r.2) :: r.1.map Chunk.str

/-- Writing one chunk: iterating a list of strings writes each string;
iterating a single string writes its characters, i.e. the string itself. -/
def writeChunk : Chunk → String
  | .strs ss => String.join ss
  | .str s => s

/-- Model of `write_metadata_to_file`.  `current_time` is the
`dt.datetime.now()...` string read at the start of the call; `directory_path`
and `user` are the `DIRECTORY_PATH` constant and `os.getenv('USERNAME',...)`.
The result is the full byte content written, or `none` when the subscript
`data_list[0]` or `data_list[1]` raises `IndexError` (in which case the Python
call dies mid-write and no complete report exists). -/
def write_metadata_to_file (current_time directory_path user : String)
    (data_list : List Chunk) : Option String :=
  match data_list[0]?, data_list[1]? with
  | some c0, some c1 =>
      some (
        "# Layer Metadata Report\n\n" ++
        "**Generated:** " ++ current_time ++ "\n\n" ++
        "**Script Version:** 1.0\n\n" ++
        "**Author:** " ++ user ++ "\n\n" ++
        "**Source Directory:** " ++ directory_path ++ "\n\n" ++
        "---\n\n" ++
        writeChunk c0 ++
        "---\n\n" ++
        writeChunk c1 ++
        "\n---\n\n" ++
        "**End of Report**\n\n" ++
        "Report completed at: " ++ current_time ++ "\n")
  | _, _ => none

/-- The two writes of `main` (lines 182-183).  `t1`, `t2` are the clock
strings the two calls observe; the second write never happens when the first
raises. -/
def runOutputs (data_list : List Chunk) (t1 t2 dir user : String) :
    Option (String × String) :=
  match write_metadata_to_file t1 dir user data_list with
  | none => none
  | some o1 =>
    match write_metadata_to_file t2 dir user data_list with
    | none => none
    | some o2 => some (o1, o2)

/-- Model of `layer_metadata.main`: the printed messages and, unless the glob
came back empty, the outcome of the two writes (`none` inside = the run
crashed while writing). -/
def metadataMain (lyrx_files : List LyrxFile) (t1 t2 dir user : String) :
    List String × Option (Option (String × String)) :=
  if lyrx_files.isEmpty then
    (["No .lyrx files found in " ++ dir], none)
  else
    (["Found " ++ toString lyrx_files.length ++ " layer files to process"],
     some (runOutputs (extract_layer_metadata lyrx_files) t1 t2 dir user))

end LayerMetadata

namespace GeodatabaseCatalog

/-! ## Model of `geodatabase_catalog.py`

`arcpy` and `os` are modelled by an environment `ArcEnv`.  The listing calls
(`ListFeatureClasses`, `ListDatasets`, `ListTables`, `ListRasters`) read the
global `arcpy.env.workspace`, so their models take the current workspace value
as an explicit argument; a Python return of `None` is `Option.none` (the
source guards every listing with `or []`).  A raised exception is an
`Except.error`. -/

/-- The attributes of an `arcpy.Describe` result that the script reads.
`datasetType` and `shapeType` are `none` when the attribute is missing
(`getattr` default); `spatialReference` models the guarded access
`hasattr(desc, "spatialReference") and desc.spatialReference` followed by
`.name`: `.ok none` = attribute missing or falsy, `.error` = the access
raised. -/
structure Desc where
  name : String
  datasetType : Option String
  shapeType : Option String
  spatialReference : Except String (Option String)
deriving DecidableEq

/-- The external environment of the inventory script. -/
structure ArcEnv where
  describe : String → Except String Desc
  getCount : String → Except String Int
  getmtime : String → Except Unit Int
  fmtTime : Int → Except Unit String
  listFeatureClasses : Option String → Option (List String)
  listDatasets : Option String → String → String → Option (List String)
  listTables : Option String → Option (List String)
  listRasters : Option String → Option (List String)

/-- Model of `format_timestamp`: formatting that raises yields `None`. -/
def format_timestamp (env : ArcEnv) (timestamp : Int) : Option String :=
  match env.fmtTime timestamp with
  | .ok s => some s
  | .error _ => none

/-- One row of the inventory, with the dictionary keys of the source. -/
structure DatasetRecord where
  GDB_Name : String
  GDB_Path : String
  GDB_Last_Modified : Option String
  Feature_Dataset : Option String
  Dataset_Name : String
  Dataset_Path : String
  Dataset_Type : String
  Geometry_Type : Option String
  Feature_Count : Option Int
  Spatial_Reference : Option String
deriving DecidableEq

/-- Model of `describe_dataset`.  The initial `arcpy.Describe` call is outside
any `try`, so its failure propagates as `.error`; the row-count and
spatial-reference queries are each wrapped in `try`/`except` and fall back to
`None`. -/
def describe_dataset (env : ArcEnv) (gdb_name gdb_path : String)
    (gdb_last_modified : Option String) (dataset_path : String)
    (feature_dataset : Option String := none) : Except String DatasetRecord :=
  match env.describe dataset_path with
  | .error e => .error e
  | .ok desc =>
    let dataset_type := desc.datasetType.getD "Unknown"
    let geometry_type :=
      if dataset_type = "FeatureClass" then desc.shapeType else none
    let feature_count : Option Int :=
      if dataset_type = "FeatureClass" ∨ dataset_type = "Table" then
        match env.getCount dataset_path with
        | .ok n => some n
        | .error _ => none
      else none
    let spatial_reference : Option String :=
      match desc.spatialReference with
      | .ok v => v
      | .error _ => none
    .ok {
      GDB_Name := gdb_name
      GDB_Path := gdb_path
      GDB_Last_Modified := gdb_last_modified
      Feature_Dataset := feature_dataset
      Dataset_Name := desc.name
      Dataset_Path := dataset_path
      Dataset_Type := dataset_type
      Geometry_Type := geometry_type
      Feature_Count := feature_count
      Spatial_Reference := spatial_reference }

/-- The workspace assignments and listing calls the script performs, each
listing call tagged with the `arcpy.env.workspace` value at call time. -/
inductive ArcEvent where
  | setWs (w : Option String)
  | listFC (ws : Option String)
  | listDS (ws : Option String)
  | listTabs (ws : Option String)
  | listRas (ws : Option String)
deriving DecidableEq

/-- A `for x in listing: records.append(describe_dataset(...))` loop:
an exception from any `describe_dataset` call aborts the loop (and the whole
inventory). -/
def describeList (env : ArcEnv) (gdb_name gdb_path : String)
    (gdb_last_modified : Option String) (base : String)
    (feature_dataset : Option String) :
    List String → Except String (List DatasetRecord)
  | [] => .ok []
  | x :: xs =>
    match describe_dataset env gdb_name gdb_path gdb_last_modified
        (pathJoin base x) feature_dataset with
    | .error e => .error e
    | .ok r =>
      match describeList env gdb_name gdb_path gdb_last_modified base
          feature_dataset xs with
      | .error e => .error e
      | .ok rs => .ok (r :: rs)

/-- The `for fds in arcpy.ListDatasets("", "Feature") or []` loop.
Each iteration sets the workspace to the feature dataset, lists and describes
its feature classes, then resets the workspace to the geodatabase.  `ws` is
the workspace value on entry; the returned `Option String` is its value after
the loop. -/
def fdsLoop (env : ArcEnv) (dirname gdb_path : String)
    (gdb_last_modified : Option String) (ws : Option String) :
    List String → Except String (List DatasetRecord × List ArcEvent × Option String)
  | [] => .ok ([], [], ws)
  | fds :: rest =>
    let fds_path := pathJoin gdb_path fds
    let ws1 : Option String := some fds_path
    let fcs := (env.listFeatureClasses ws1).getD []
    match describeList env dirname gdb_path gdb_last_modified fds_path
        (some fds) fcs with
    | .error e => .error e
    | .ok recs =>
      let ws2 : Option String := some gdb_path
      match fdsLoop env dirname gdb_path gdb_last_modified ws2 rest with
      | .error e => .error e
      | .ok (r2, t2, ws3) =>
          .ok (recs ++ r2,
               [.setWs ws1, .listFC ws1, .setWs ws2] ++ t2,
               ws3)

/-- The body of the per-geodatabase block of `inventory_geodatabases`
(lines 114-181): modification time, workspace assignment, the four listing
loops, and the final workspace clear.  The listing calls receive the
workspace value current at the moment of the call (`ws2` below is threaded
out of the feature-dataset loop, exactly as the global pointer is). -/
def processGdb (env : ArcEnv) (dirpath dirname : String) :
    Except String (List DatasetRecord × List ArcEvent × Option String) :=
  let gdb_path := pathJoin dirpath dirname
  let gdb_last_modified : Option String :=
    match env.getmtime gdb_path with
    | .ok t => format_timestamp env t
    | .error _ => none
  let ws1 : Option String := some gdb_path
  let fcs := (env.listFeatureClasses ws1).getD []
  match describeList env dirname gdb_path gdb_last_modified gdb_path none fcs with
  | .error e => .error e
  | .ok recsA =>
    let fdsL := (env.listDatasets ws1 "" "Feature").getD []
    match fdsLoop env dirname gdb_path gdb_last_modified ws1 fdsL with
    | .error e => .error e
    | .ok (recsB, trB, ws2) =>
      let tabs := (env.listTables ws2).getD []
      match describeList env dirname gdb_path gdb_last_modified gdb_path none tabs with
      | .error e => .error e
      | .ok recsC =>
        let ras := (env.listRasters ws2).getD []
        match describeList env dirname gdb_path gdb_last_modified gdb_path none ras with
        | .error e => .error e
        | .ok recsD =>
            .ok (recsA ++ recsB ++ recsC ++ recsD,
                 [.setWs ws1, .listFC ws1, .listDS ws1] ++ trB ++
                   [.listTabs ws2, .listRas ws2, .setWs none],
                 none)

/-- One `os.walk` entry: the directory path, its subdirectory names, and its
file names (the source binds the latter to `_`). -/
structure WalkEntry where
  dirpath : String
  dirnames : List String
  filenames : List String
deriving DecidableEq

/-- The inner `for dirname in dirnames` loop: names failing the suffix test
are skipped; each candidate geodatabase is processed in order, threading the
global workspace value. -/
def inventoryDirnames (env : ArcEnv) (dirpath : String) (ws : Option String) :
    List String → Except String (List DatasetRecord × List ArcEvent × Option String)
  | [] => .ok ([], [], ws)
  | d :: ds =>
    if hasGdbSuffix d then
      match processGdb env dirpath d with
      | .error e => .error e
      | .ok (r1, t1, ws1) =>
        match inventoryDirnames env dirpath ws1 ds with
        | .error e => .error e
        | .ok (r2, t2, ws2) => .ok (r1 ++ r2, t1 ++ t2, ws2)
    else inventoryDirnames env dirpath ws ds

/-- Model of `inventory_geodatabases`: the outer `os.walk` loop.  Returns the
accumulated records, the trace of workspace assignments and listing calls,
and the final workspace value; an uncaught exception anywhere inside is
`.error`. -/
def inventory_geodatabases (env : ArcEnv) (ws : Option String) :
    List WalkEntry → Except String (List DatasetRecord × List ArcEvent × Option String)
  | [] => .ok ([], [], ws)
  | e :: es =>
    match inventoryDirnames env e.dirpath ws e.dirnames with
    | .error err => .error err
    | .ok (r1, t1, ws1) =>
      match inventory_geodatabases env ws1 es with
      | .error err => .error err
      | .ok (r2, t2, ws2) => .ok (r1 ++ r2, t1 ++ t2, ws2)

/-- The sort key of `df.sort_values(by=["GDB_Name", "Feature_Dataset",
"Dataset_Name"])`: lexicographic on the three columns, with a missing
(`None`/NaN) feature dataset placed after all present ones, as pandas places
NaN last.  String columns compare lexicographically by character code. -/
def recKey (r : DatasetRecord) :
    Lex (List Char × Lex (Lex (Bool × List Char) × List Char)) :=
  toLex (r.GDB_Name.data,
    toLex (toLex (r.Feature_Dataset.isNone, (r.Feature_Dataset.getD "").data),
      r.Dataset_Name.data))

/-- The row comparison used for the final sort. -/
def recLE (a b : DatasetRecord) : Bool := decide (recKey a ≤ recKey b)

/-- Model of the `sort_values` call: a sort of the record list by `recLE`. -/
def sortRecords (records : List DatasetRecord) : List DatasetRecord :=
  records.mergeSort recLE

/-- Model of `geodatabase_catalog.main`: the relevant printed messages and
either the uncaught exception, or `none` when no datasets were found (no file
written), or the sorted rows written to the spreadsheet. -/
def catalogMain (env : ArcEnv) (ws : Option String) (walk : List WalkEntry) :
    List String × Except String (Option (List DatasetRecord)) :=
  match inventory_geodatabases env ws walk with
  | .error e => ([], .error e)
  | .ok (records, _, _) =>
    if records.isEmpty then (["No datasets found."], .ok none)
    else (["Inventory complete."], .ok (some (sortRecords records)))

/-- The candidate geodatabases of a walk: every directory name with the
case-insensitive `.gdb` suffix, paired with its parent path, in walk order.
File names never contribute. -/
def gdbCandidates (walk : List WalkEntry) : List (String × String) :=
  walk.flatMap (fun e => (e.dirnames.filter hasGdbSuffix).map (fun d => (e.dirpath, d)))

/-- Processing a flat list of candidate geodatabases in order; used to state
that the inventory depends on the walk only through `gdbCandidates`. -/
def inventoryCandidates (env : ArcEnv) (ws : Option String) :
    List (String × String) → Except String (List DatasetRecord × List ArcEvent × Option String)
  | [] => .ok ([], [], ws)
  | (dp, dn) :: rest =>
    match processGdb env dp dn with
    | .error e => .error e
    | .ok (r1, t1, ws1) =>
      match inventoryCandidates env ws1 rest with
      | .error e => .error e
      | .ok (r2, t2, ws2) => .ok (r1 ++ r2, t1 ++ t2, ws2)

/-- The expected event trace of the feature-dataset loop over `fdsL` inside
the geodatabase at `gdb_path`. -/
def fdsTraceShape (gdb_path : String) (fdsL : List String) : List ArcEvent :=
  fdsL.flatMap (fun fds =>
    [.setWs (some (pathJoin gdb_path fds)),
     .listFC (some (pathJoin gdb_path fds)),
     .setWs (some gdb_path)])

/-- The expected event trace of one geodatabase's inventory: workspace set to
the geodatabase, the two container-level listings there, the feature-dataset
blocks (each restoring the workspace), the table and raster listings at the
geodatabase workspace, and the final clear. -/
def gdbTraceShape (env : ArcEnv) (gdb_path : String) : List ArcEvent :=
  [.setWs (some gdb_path), .listFC (some gdb_path), .listDS (some gdb_path)] ++
  fdsTraceShape gdb_path ((env.listDatasets (some gdb_path) "" "Feature").getD []) ++
  [.listTabs (some gdb_path), .listRas (some gdb_path), .setWs none]

end GeodatabaseCatalog

namespace LayerMetadata

/-! ## Concrete inputs for counterexamples and witnesses -/

/-- A layer supporting `DATASOURCE` whose field, property and symbology
queries all succeed; it contributes four content sections. -/
def sampleLayer : LayerModel := {
  name := "Rd"
  supportsDataSource := true
  dataSource := "g/rd"
  sourceStats := .ok none
  daFields := .ok [{ name := "ID", type := "OID", length := "4",
                     aliasName := "ID", isNullable := "False" }]
  props := .ok { description := "d", visible := "True", minScale := "0", maxScale := "0",
                 transparency := "0", supportsDefinitionQuery := false, definitionQuery := "" }
  sym := .ok { supportsSymbology := true, rendererType := "Simple",
               symbol := some { type := "S", color := some "(0,0,0)", size := some "4" },
               classificationFields := none, classBreakCount := none, groupsCount := none } }

/-- The stat data and layers of the successfully opened file. -/
def sampleFileModel : FileModel :=
  { file_created := "C", file_modified := "M", file_size_str := "1.00",
    layers := [sampleLayer] }

/-- A layer file that opens successfully. -/
def goodFile : LyrxFile := {
  path := "a/rd.lyrx"
  openResult := .ok sampleFileModel }

/-- A layer file whose opening raises. -/
def badFile : LyrxFile := { path := "a/bad.lyrx", openResult := .error "cannot open" }

/-- The report written for the single good file with clock string `"T"`. -/
def reportT : String :=
  (write_metadata_to_file "T" "D" "U" (extract_layer_metadata [goodFile])).getD ""

end LayerMetadata

namespace GeodatabaseCatalog

/-! ## Concrete inputs for counterexamples and witnesses -/

/-- An environment whose `Describe` call always raises. -/
def envBad : ArcEnv := {
  describe := fun _ => .error "describe failed"
  getCount := fun _ => .ok 0
  getmtime := fun _ => .ok 0
  fmtTime := fun _ => .ok "2024"
  listFeatureClasses := fun _ => some ["fc1"]
  listDatasets := fun _ _ _ => some []
  listTables := fun _ => some []
  listRasters := fun _ => some [] }

/-- A walk with a single geodatabase directory. -/
def walkOne : List WalkEntry :=
  [{ dirpath := "root", dirnames := ["data.gdb"], filenames := [] }]

/-- An environment listing one feature dataset (empty of feature classes) and
nothing else; `Describe` is never reached. -/
def envW : ArcEnv := {
  describe := fun _ => .error "unused"
  getCount := fun _ => .error "unused"
  getmtime := fun _ => .error ()
  fmtTime := fun _ => .error ()
  listFeatureClasses := fun _ => none
  listDatasets := fun _ _ _ => some ["fdsA"]
  listTables := fun _ => none
  listRasters := fun _ => none }

/-- The event trace `envW` produces for the geodatabase `root/a.gdb`. -/
def trW : List ArcEvent :=
  [.setWs (some "root/a.gdb"), .listFC (some "root/a.gdb"), .listDS (some "root/a.gdb"),
   .setWs (some "root/a.gdb/fdsA"), .listFC (some "root/a.gdb/fdsA"), .setWs (some "root/a.gdb"),
   .listTabs (some "root/a.gdb"), .listRas (some "root/a.gdb"), .setWs none]

/-- A walk with one geodatabase directory and a plain file named with the
geodatabase suffix. -/
def walkG : List WalkEntry :=
  [{ dirpath := "root", dirnames := ["a.gdb"], filenames := ["fake.gdb"] }]

/-- A walk whose directory names never carry the geodatabase suffix. -/
def walkNoGdb : List WalkEntry :=
  [{ dirpath := "root", dirnames := ["plain", "x.txt"], filenames := ["fake.gdb"] }]

/-- A describable table whose row count will fail. -/
def descT : Desc := { name := "tbl", datasetType := some "Table", shapeType := none,
                      spatialReference := .ok (some "SR") }

/-- Environment for the row-count-failure witness. -/
def envCnt : ArcEnv := {
  describe := fun _ => .ok descT
  getCount := fun _ => .error "count boom"
  getmtime := fun _ => .error ()
  fmtTime := fun _ => .error ()
  listFeatureClasses := fun _ => none
  listDatasets := fun _ _ _ => none
  listTables := fun _ => none
  listRasters := fun _ => none }

/-- A describable feature class whose spatial-reference access raises. -/
def descSR : Desc := { name := "fc", datasetType := some "FeatureClass",
                       shapeType := some "Polyline", spatialReference := .error "sr boom" }

/-- Environment for the sub-query-failure witness: row count and spatial
reference both fail. -/
def envSR : ArcEnv := {
  describe := fun _ => .ok descSR
  getCount := fun _ => .error "count boom"
  getmtime := fun _ => .error ()
  fmtTime := fun _ => .error ()
  listFeatureClasses := fun _ => none
  listDatasets := fun _ _ _ => none
  listTables := fun _ => none
  listRasters := fun _ => none }

end GeodatabaseCatalog

open LayerMetadata GeodatabaseCatalog

set_option maxRecDepth 200000

/-! ## Helper lemmas -/

/-- When every globbed file fails to open, the per-file loop appends nothing:
no content sections and no table-of-contents entries. -/
theorem extractLoop_all_fail (files : List LyrxFile)
    (hfail : ∀ f ∈ files, ∃ e, f.openResult = .error e) :
    extractLoop files = ([], []) := by
  induction files with
  | nil => rfl
  | cons f fs ih =>
    have hrest := ih (fun g hg => hfail g (by simp [hg]))
    obtain ⟨e, he⟩ := hfail f (by simp)
    simp [extractLoop, he, hrest]

/-! ## Claim theorems for `layer_metadata.py` -/

/-- C1: the claim says the written report contains every content section
collected for successfully processed layer files, with no sections dropped.
The code violates this: `write_metadata_to_file` iterates `data_list[1]` (the
first collected section, a single string) instead of the remaining sections,
so everything after the first section is dropped.  At the failing input
(one file that raises on opening followed by one file that opens with a
fully-described layer) the extraction collects the table of contents plus
five sections, the layer/fields sections are in `data_list`, and the written
report contains the file-information section but neither the layer-source
section nor the fields section. -/
theorem C1_report_drops_collected_sections :
    (extract_layer_metadata [badFile, goodFile]).length = 6 ∧
    Chunk.str (layerInfoSection sampleLayer) ∈ extract_layer_metadata [badFile, goodFile] ∧
    Chunk.str (fieldsSection sampleLayer) ∈ extract_layer_metadata [badFile, goodFile] ∧
    ((write_metadata_to_file "T" "D" "U" (extract_layer_metadata [badFile, goodFile])).map
      (occursIn (fileInfoSection goodFile.path sampleFileModel))) = some true ∧
    ((write_metadata_to_file "T" "D" "U" (extract_layer_metadata [badFile, goodFile])).map
      (occursIn (layerInfoSection sampleLayer))) = some false ∧
    ((write_metadata_to_file "T" "D" "U" (extract_layer_metadata [badFile, goodFile])).map
      (occursIn (fieldsSection sampleLayer))) = some false := by
  decide

/-- C3 counterexample: the two destination copies are written by two separate
calls that each read the clock; a run whose two clock reads format differently
produces two different byte contents, refuting byte-identity as stated. -/
theorem C3_counterexample_distinct_clock_reads :
    (runOutputs (extract_layer_metadata [goodFile])
      "2024-01-01 00:00:00" "2024-01-01 00:00:01" "D" "U").isSome = true ∧
    ((runOutputs (extract_layer_metadata [goodFile])
      "2024-01-01 00:00:00" "2024-01-01 00:00:01" "D" "U").all
        (fun p => p.1 == p.2)) = false := by
  decide

/-- C3 amended: whenever the two writer calls of a run observe the same
formatted clock string, the two destination files receive identical content
(the writer is deterministic in the clock string, the configuration and the
collected data). -/
theorem C3_amended_same_clock_copies_identical (files : List LyrxFile)
    (t1 t2 dir user o1 o2 : String)
    (ht : t1 = t2)
    (h : runOutputs (extract_layer_metadata files) t1 t2 dir user = some (o1, o2)) :
    o1 = o2 := by
  subst ht
  unfold runOutputs at h
  cases hw : write_metadata_to_file t1 dir user (extract_layer_metadata files) with
  | none => rw [hw] at h; exact absurd h (by simp)
  | some o =>
    rw [hw] at h
    simp only [Option.some.injEq, Prod.mk.injEq] at h
    exact h.1.symm.trans h.2

/-- Witness for the amended C3 theorem at a concrete run. -/
theorem C3_amended_witness :
    runOutputs (extract_layer_metadata [goodFile]) "T" "T" "D" "U" = some (reportT, reportT) ∧
    reportT = reportT :=
  ⟨by decide,
   C3_amended_same_clock_copies_identical [goodFile] "T" "T" "D" "U" reportT reportT rfl
     (by decide)⟩

/-- C6: when the glob over the configured directory matches no `.lyrx` files,
`main` prints the not-found message and returns before attempting any write. -/
theorem C6_empty_glob_writes_nothing (t1 t2 dir user : String) :
    metadataMain [] t1 t2 dir user = (["No .lyrx files found in " ++ dir], none) :=
  rfl

/-- C9: when at least one layer file is matched but every matched file raises
while being opened, the extraction result is exactly the table-of-contents
element, and the writer's subscript `data_list[1]` raises `IndexError`: the
run crashes and no complete report is produced at either destination. -/
theorem C9_all_open_failures_crash_run (files : List LyrxFile) (t1 t2 dir user : String)
    (hne : files ≠ [])
    (hfail : ∀ f ∈ files, ∃ e, f.openResult = .error e) :
    extract_layer_metadata files = [Chunk.strs [contents_header]] ∧
    write_metadata_to_file t1 dir user (extract_layer_metadata files) = none ∧
    runOutputs (extract_layer_metadata files) t1 t2 dir user = none := by
  have hl := extractLoop_all_fail files hfail
  refine ⟨?_, ?_, ?_⟩ <;>
    simp [extract_layer_metadata, hl, write_metadata_to_file, runOutputs]

/-- Witness for C9 at a single file that raises on opening. -/
theorem C9_witness :
    extract_layer_metadata [badFile] = [Chunk.strs [contents_header]] ∧
    write_metadata_to_file "T" "D" "U" (extract_layer_metadata [badFile]) = none ∧
    runOutputs (extract_layer_metadata [badFile]) "T" "T2" "D" "U" = none :=
  C9_all_open_failures_crash_run [badFile] "T" "T2" "D" "U" (by decide)
    (by intro f hf
        rw [List.mem_singleton] at hf
        subst hf
        exact ⟨"cannot open", rfl⟩)

/-! ## Claim theorems for `geodatabase_catalog.py`: error handling -/

/-- C2 counterexample: the claim says any failure while describing a single
dataset, including the initial `arcpy.Describe` call, is caught and the loop
continues.  The initial call is outside every `try`: in an environment where
it raises, the whole inventory walk aborts with the exception instead of
continuing. -/
theorem C2_counterexample_describe_aborts_walk :
    inventory_geodatabases envBad none walkOne = .error "describe failed" ∧
    catalogMain envBad none walkOne = ([], .error "describe failed") := by
  decide

/-- C2 amended: failures of the row-count query and of the spatial-reference
access are each caught and converted to a null field, and `describe_dataset`
still returns a row (so the surrounding loops continue); only a failure of
the initial `Describe` call propagates. -/
theorem C2_amended_subquery_failures_isolated (env : ArcEnv)
    (gdb_name gdb_path dataset_path : String)
    (gdb_last_modified feature_dataset : Option String)
    (d : Desc) (e1 e2 : String)
    (hd : env.describe dataset_path = .ok d)
    (hc : env.getCount dataset_path = .error e1)
    (hs : d.spatialReference = .error e2) :
    ∃ r, describe_dataset env gdb_name gdb_path gdb_last_modified dataset_path
        feature_dataset = .ok r ∧
      r.Feature_Count = none ∧ r.Spatial_Reference = none := by
  simp only [describe_dataset, hd]
  refine ⟨_, rfl, ?_, ?_⟩
  · simp only [hc]
    split <;> rfl
  · simp only [hs]

/-- Witness for the amended C2 theorem: a feature class whose row-count and
spatial-reference queries both raise still yields a row with null fields. -/
theorem C2_amended_witness :
    ∃ r, describe_dataset envSR "g" "root/g.gdb" none "root/g.gdb/fc" none = .ok r ∧
      r.Feature_Count = none ∧ r.Spatial_Reference = none :=
  C2_amended_subquery_failures_isolated envSR "g" "root/g.gdb" "root/g.gdb/fc"
    none none descSR "count boom" "sr boom" rfl rfl rfl

/-- C7: a feature class or table whose row-count query raises still produces
its row, with an empty feature-count field and all identifying columns
intact; because the call returns normally, the scan of the remaining datasets
continues. -/
theorem C7_rowcount_failure_yields_null_count (env : ArcEnv)
    (gdb_name gdb_path dataset_path : String)
    (gdb_last_modified feature_dataset : Option String)
    (d : Desc) (e : String)
    (_ht : d.datasetType = some "FeatureClass" ∨ d.datasetType = some "Table")
    (hd : env.describe dataset_path = .ok d)
    (hc : env.getCount dataset_path = .error e) :
    ∃ r, describe_dataset env gdb_name gdb_path gdb_last_modified dataset_path
        feature_dataset = .ok r ∧
      r.Feature_Count = none ∧ r.Dataset_Name = d.name ∧
      r.GDB_Name = gdb_name ∧ r.Feature_Dataset = feature_dataset := by
  simp only [describe_dataset, hd]
  refine ⟨_, rfl, ?_, rfl, rfl, rfl⟩
  simp only [hc]
  split <;> rfl

/-- Witness for C7: a concrete table whose row count raises. -/
theorem C7_witness :
    ∃ r, describe_dataset envCnt "g" "root/g.gdb" none "root/g.gdb/tbl" none = .ok r ∧
      r.Feature_Count = none ∧ r.Dataset_Name = "tbl" ∧
      r.GDB_Name = "g" ∧ r.Feature_Dataset = none :=
  C7_rowcount_failure_yields_null_count envCnt "g" "root/g.gdb" "root/g.gdb/tbl"
    none none descT "count boom" (Or.inr rfl) rfl rfl

/-- No geodatabase-suffixed directory name means the inner loop processes
nothing and leaves records, trace and workspace untouched. -/
theorem inventoryDirnames_no_gdb (env : ArcEnv) (dirpath : String) :
    ∀ (ds : List String) (ws : Option String),
      (∀ d ∈ ds, hasGdbSuffix d = false) →
      inventoryDirnames env dirpath ws ds = .ok ([], [], ws) := by
  intro ds
  induction ds with
  | nil => intro ws _; rfl
  | cons d rest ih =>
    intro ws h
    have hd := h d (by simp)
    simp only [inventoryDirnames, hd, Bool.false_eq_true, if_false]
    exact ih ws (fun x hx => h x (by simp [hx]))

/-- A walk without geodatabase-suffixed directory names yields no records,
no listing calls, and an unchanged workspace. -/
theorem inventory_no_gdb (env : ArcEnv) :
    ∀ (walk : List WalkEntry) (ws : Option String),
      (∀ e ∈ walk, ∀ d ∈ e.dirnames, hasGdbSuffix d = false) →
      inventory_geodatabases env ws walk = .ok ([], [], ws) := by
  intro walk
  induction walk with
  | nil => intro ws _; rfl
  | cons e es ih =>
    intro ws h
    have h1 := inventoryDirnames_no_gdb env e.dirpath e.dirnames ws (h e (by simp))
    have h2 := ih ws (fun x hx d hd => h x (by simp [hx]) d hd)
    simp [inventory_geodatabases, h1, h2]

/-- C5: a run in which the walk discovers zero datasets writes no output file
and reports that no datasets were found; in particular a directory tree
without geodatabase-suffixed folders discovers zero datasets. -/
theorem C5_zero_datasets_no_output (env : ArcEnv) (ws : Option String)
    (walk walk2 : List WalkEntry) (tr : List ArcEvent) (w : Option String)
    (hns : ∀ e ∈ walk, ∀ d ∈ e.dirnames, hasGdbSuffix d = false)
    (h2 : inventory_geodatabases env ws walk2 = .ok ([], tr, w)) :
    inventory_geodatabases env ws walk = .ok ([], [], ws) ∧
    catalogMain env ws walk = (["No datasets found."], .ok none) ∧
    catalogMain env ws walk2 = (["No datasets found."], .ok none) := by
  have h1 := inventory_no_gdb env walk ws hns
  refine ⟨h1, ?_, ?_⟩ <;> simp [catalogMain, h1, h2]

/-- Witness for C5: a tree whose only `.gdb`-suffixed entry is a plain file,
and a tree with one empty geodatabase. -/
theorem C5_witness :
    inventory_geodatabases envW none walkNoGdb = .ok ([], [], none) ∧
    catalogMain envW none walkNoGdb = (["No datasets found."], .ok none) ∧
    catalogMain envW none walkG = (["No datasets found."], .ok none) :=
  C5_zero_datasets_no_output envW none walkNoGdb walkG trW none (by decide) (by decide)

/-! ## Claim theorem for `geodatabase_catalog.py`: output ordering -/

/-- The row comparison is transitive (it decides a linear order on keys). -/
theorem recLE_trans (a b c : DatasetRecord) :
    recLE a b = true → recLE b c = true → recLE a c = true := by
  simp only [recLE, decide_eq_true_eq]
  exact le_trans

/-- The row comparison is total. -/
theorem recLE_total (a b : DatasetRecord) :
    (recLE a b || recLE b a) = true := by
  simp only [recLE, Bool.or_eq_true, decide_eq_true_eq]
  exact le_total _ _

/-- C4: the rows written by an inventory run are the collected records sorted
ascending by the key (geodatabase name, feature-dataset name, dataset name) —
`sortRecords` produces a list that is sorted under the key comparison and is
a permutation of the collected records; nothing beyond the key is imposed on
tied rows (any stable or unstable order of ties satisfies this statement). -/
theorem C4_rows_sorted_by_key (records : List DatasetRecord) :
    List.Sorted (fun a b => recLE a b = true) (sortRecords records) ∧
    (sortRecords records).Perm records := by
  constructor
  · exact List.sorted_mergeSort recLE_trans recLE_total records
  · exact List.mergeSort_perm records recLE

/-! ## Claim theorem for `geodatabase_catalog.py`: workspace discipline -/

/-- A successful run of the feature-dataset loop emits exactly the expected
events (set to the feature dataset, list there, reset to the geodatabase),
and leaves the workspace at the geodatabase path unless the loop was empty,
in which case it is untouched. -/
theorem fdsLoop_ok_shape (env : ArcEnv) (dirname gdb_path : String)
    (gdb_last_modified : Option String) :
    ∀ (l : List String) (ws : Option String) r t w,
      fdsLoop env dirname gdb_path gdb_last_modified ws l = .ok (r, t, w) →
      t = fdsTraceShape gdb_path l ∧ w = (if l.isEmpty then ws else some gdb_path) := by
  intro l
  induction l with
  | nil =>
    intro ws r t w h
    simp only [fdsLoop, Except.ok.injEq, Prod.mk.injEq] at h
    simp [fdsTraceShape, h.2.1.symm, h.2.2.symm]
  | cons fds rest ih =>
    intro ws r t w h
    simp only [fdsLoop] at h
    split at h
    · exact absurd h (by simp)
    · split at h
      · exact absurd h (by simp)
      · rename_i recs hdl trip r2 t2 ws3 hrec
        simp only [Except.ok.injEq, Prod.mk.injEq] at h
        obtain ⟨hr, htr, hw⟩ := h
        obtain ⟨ht2, hw3⟩ := ih (some gdb_path) r2 t2 ws3 hrec
        subst htr hw ht2
        constructor
        · simp [fdsTraceShape]
        · cases rest <;> simp_all

/-- Every event of the feature-dataset block trace is a workspace assignment
or a nested feature-class listing. -/
theorem fdsTraceShape_events (gdb_path : String) (l : List String) :
    ∀ ev ∈ fdsTraceShape gdb_path l,
      (∃ p, ev = ArcEvent.setWs p) ∨ (∃ p, ev = ArcEvent.listFC p) := by
  intro ev hev
  simp only [fdsTraceShape, List.mem_flatMap, List.mem_cons, List.not_mem_nil,
    or_false] at hev
  obtain ⟨fds, _, hm⟩ := hev
  rcases hm with h | h | h <;> subst h
  · exact Or.inl ⟨_, rfl⟩
  · exact Or.inr ⟨_, rfl⟩
  · exact Or.inl ⟨_, rfl⟩

/-- The only feature-dataset, table and raster listing events in a
geodatabase's trace occur at the geodatabase workspace. -/
theorem gdbTraceShape_top_listings (env : ArcEnv) (g : String) :
    (∀ w, ArcEvent.listDS w ∈ gdbTraceShape env g → w = some g) ∧
    (∀ w, ArcEvent.listTabs w ∈ gdbTraceShape env g → w = some g) ∧
    (∀ w, ArcEvent.listRas w ∈ gdbTraceShape env g → w = some g) := by
  refine ⟨?_, ?_, ?_⟩ <;>
    · intro w hw
      simp only [gdbTraceShape, List.mem_append, List.mem_cons, List.not_mem_nil,
        or_false] at hw
      rcases hw with ((h1 | h1 | h1) | h1) | h1 | h1 | h1 <;>
        first
        | (rcases fdsTraceShape_events _ _ _ h1 with ⟨p, hp⟩ | ⟨p, hp⟩ <;>
            exact absurd hp (by simp))
        | simp_all


/-- C8: on a successful per-geodatabase inventory the emitted trace is exactly
`gdbTraceShape`: the workspace is set to the geodatabase before its listing
calls, set to each feature dataset for the nested listing and restored to the
geodatabase path right after it, and cleared (set to `None`) at the end; as a
consequence every top-level listing call — the first feature-class listing,
the feature-dataset listing, the table listing and the raster listing —
executes with the workspace equal to the geodatabase path. -/
theorem C8_workspace_set_restored_cleared (env : ArcEnv) (dirpath dirname : String)
    (rs : List DatasetRecord) (tr : List ArcEvent) (wsF : Option String)
    (h : processGdb env dirpath dirname = .ok (rs, tr, wsF)) :
    tr = gdbTraceShape env (pathJoin dirpath dirname) ∧
    wsF = none ∧
    tr.getLast? = some (ArcEvent.setWs none) ∧
    tr.head? = some (ArcEvent.setWs (some (pathJoin dirpath dirname))) ∧
    (∀ w, ArcEvent.listDS w ∈ tr → w = some (pathJoin dirpath dirname)) ∧
    (∀ w, ArcEvent.listTabs w ∈ tr → w = some (pathJoin dirpath dirname)) ∧
    (∀ w, ArcEvent.listRas w ∈ tr → w = some (pathJoin dirpath dirname)) := by
  simp only [processGdb] at h
  split at h
  · exact absurd h (by simp)
  · split at h
    · exact absurd h (by simp)
    · rename_i recsA hA trip recsB trB ws2 hB
      split at h
      · exact absurd h (by simp)
      · rename_i recsC hC
        split at h
        · exact absurd h (by simp)
        · rename_i recsD hD
          simp only [Except.ok.injEq, Prod.mk.injEq] at h
          obtain ⟨-, htr, hw⟩ := h
          obtain ⟨hB1, hB2⟩ := fdsLoop_ok_shape env dirname (pathJoin dirpath dirname)
            _ _ _ recsB trB ws2 hB
          have hws2 : ws2 = some (pathJoin dirpath dirname) := by
            rw [hB2]; split <;> rfl
          subst hB1 hws2 htr hw
          refine ⟨rfl, rfl, ?_, rfl,
            (gdbTraceShape_top_listings env _).1,
            (gdbTraceShape_top_listings env _).2.1,
            (gdbTraceShape_top_listings env _).2.2⟩
          rw [List.getLast?_append_cons]
          rfl

/-- Witness for C8: a concrete environment with one feature dataset produces
exactly the expected trace. -/
theorem C8_witness : trW = gdbTraceShape envW (pathJoin "root" "a.gdb") :=
  (C8_workspace_set_restored_cleared envW "root" "a.gdb" [] trW none (by decide)).1

/-! ## Claim theorem for `geodatabase_catalog.py`: candidate selection -/

/-- Processing a concatenation of candidate lists is processing the first
list and then the second from the workspace the first left behind. -/
theorem inventoryCandidates_append (env : ArcEnv) :
    ∀ (l1 l2 : List (String × String)) (ws : Option String),
      inventoryCandidates env ws (l1 ++ l2) =
        match inventoryCandidates env ws l1 with
        | .error e => .error e
        | .ok (r1, t1, ws1) =>
          match inventoryCandidates env ws1 l2 with
          | .error e => .error e
          | .ok (r2, t2, ws2) => .ok (r1 ++ r2, t1 ++ t2, ws2) := by
  intro l1
  induction l1 with
  | nil =>
    intro l2 ws
    simp only [List.nil_append, inventoryCandidates]
    cases h : inventoryCandidates env ws l2 with
    | error e => rfl
    | ok trip => obtain ⟨r2, t2, ws2⟩ := trip; rfl
  | cons p rest ih =>
    intro l2 ws
    obtain ⟨dp, dn⟩ := p
    simp only [List.cons_append, inventoryCandidates]
    cases hp : processGdb env dp dn with
    | error e => rfl
    | ok trip =>
      obtain ⟨r1, t1, ws1⟩ := trip
      dsimp only
      rw [List.append_eq, ih l2 ws1]
      cases h1 : inventoryCandidates env ws1 rest with
      | error e => rfl
      | ok trip2 =>
        obtain ⟨r2, t2, ws2⟩ := trip2
        dsimp only
        cases h2 : inventoryCandidates env ws2 l2 with
        | error e => rfl
        | ok trip3 =>
          obtain ⟨r3, t3, ws3⟩ := trip3
          simp [List.append_assoc]

/-- The inner directory-name loop processes exactly the suffix-filtered
directory names, in order. -/
theorem inventoryDirnames_eq_candidates (env : ArcEnv) (dirpath : String) :
    ∀ (ds : List String) (ws : Option String),
      inventoryDirnames env dirpath ws ds =
      inventoryCandidates env ws ((ds.filter hasGdbSuffix).map (fun d => (dirpath, d))) := by
  intro ds
  induction ds with
  | nil => intro ws; rfl
  | cons d rest ih =>
    intro ws
    by_cases hd : hasGdbSuffix d
    · rw [List.filter_cons_of_pos hd]
      simp only [List.map_cons, inventoryDirnames, inventoryCandidates, hd, if_true]
      cases hp : processGdb env dirpath d with
      | error e => rfl
      | ok trip =>
        obtain ⟨r1, t1, ws1⟩ := trip
        dsimp only
        rw [ih ws1]
    · rw [List.filter_cons_of_neg (by simpa using hd)]
      simp only [inventoryDirnames, hd, if_false]
      exact ih ws
  -- (the `if` on a `Bool` condition is on `hasGdbSuffix d = true`)

/-- The whole inventory depends on the walk only through its candidate list:
it equals the fold of `processGdb` over `gdbCandidates`. -/
theorem inventory_eq_candidates (env : ArcEnv) :
    ∀ (walk : List WalkEntry) (ws : Option String),
      inventory_geodatabases env ws walk =
      inventoryCandidates env ws (gdbCandidates walk) := by
  intro walk
  induction walk with
  | nil => intro ws; rfl
  | cons e es ih =>
    intro ws
    simp only [gdbCandidates, List.flatMap_cons]
    rw [inventoryCandidates_append]
    simp only [inventory_geodatabases]
    rw [inventoryDirnames_eq_candidates]
    cases h1 : inventoryCandidates env ws
        ((e.dirnames.filter hasGdbSuffix).map (fun d => (e.dirpath, d))) with
    | error err => rfl
    | ok trip =>
      obtain ⟨r1, t1, ws1⟩ := trip
      dsimp only
      rw [ih ws1]
      rfl

/-- C10: candidate geodatabases are drawn only from the directory names of
the walk, with the suffix matched case-insensitively; the file-name component
of every walk entry is ignored, so a plain file whose name ends in `.gdb` is
never selected.  Concretely: replacing all file-name lists leaves the
inventory unchanged, the inventory is a fold over `gdbCandidates`, the
candidate list itself ignores file names, and every candidate carries the
suffix and comes from some entry's directory names. -/
theorem C10_candidates_only_from_dirnames (env : ArcEnv) (ws : Option String)
    (walk : List WalkEntry) (fs : WalkEntry → List String) :
    inventory_geodatabases env ws
        (walk.map (fun e => { dirpath := e.dirpath, dirnames := e.dirnames, filenames := fs e })) =
      inventory_geodatabases env ws walk ∧
    inventory_geodatabases env ws walk = inventoryCandidates env ws (gdbCandidates walk) ∧
    gdbCandidates
        (walk.map (fun e => { dirpath := e.dirpath, dirnames := e.dirnames, filenames := fs e })) =
      gdbCandidates walk ∧
    (∀ p ∈ gdbCandidates walk, hasGdbSuffix p.2 = true ∧
      ∃ e ∈ walk, p.1 = e.dirpath ∧ p.2 ∈ e.dirnames) := by
  have hcand : gdbCandidates
      (walk.map (fun e => { dirpath := e.dirpath, dirnames := e.dirnames, filenames := fs e })) =
      gdbCandidates walk := by
    simp [gdbCandidates, List.flatMap_map]
  refine ⟨?_, inventory_eq_candidates env walk ws, hcand, ?_⟩
  · rw [inventory_eq_candidates, inventory_eq_candidates, hcand]
  · intro p hp
    simp only [gdbCandidates, List.mem_flatMap, List.mem_map] at hp
    obtain ⟨e, he, d, hd, hpd⟩ := hp
    rw [List.mem_filter] at hd
    subst hpd
    exact ⟨hd.2, e, he, rfl, hd.1⟩
